import Mathlib

/-!
Verification of the Aranet BLE advertisement decoder and repeat-reading
heuristic, shallowly embedded from `src/reading.rs`.

Modelling conventions:
* Byte buffers are `List Nat`; every read applies `% 256`, matching the `u8`
  element type of the Rust slice.
* `bytes.next().unwrap()` on an exhausted iterator is a Rust panic; reads are
  therefore `Option`-valued (`none` = iterator exhausted) and the decoder's
  outcome type has a dedicated `crash` constructor for a panic.
* The Rust iterator is replaced by absolute byte offsets.  For a given device
  variant the iterator position at each read is fixed: the optional type byte
  contributes offset 1, the per-variant header skip (8 / 7 / 5 bytes) and the
  fields read so far contribute the rest.  The offset arithmetic is noted at
  each per-variant decoder.
* `std::time::Instant` and `std::time::SystemTime` are modelled as nanosecond
  counts (`Nat`) since the respective clock's epoch.  `Instant::checked_sub`
  fails exactly on underflow; `Instant::duration_since` saturates to zero when
  the other instant is later, and `Duration::as_secs` divides by 10^9.
* Rust `Result` is `Except`; the decoder's `String` errors are represented by
  an inductive type with one constructor per distinct message produced by
  `reading.rs` (the formatted payload of the message is kept as the
  constructor's argument).
-/

/-- Per-field sensor error (`enum ReadingError` in `reading.rs`). -/
inductive ReadingError where
  | invalid
  | noData
  | highHumidity
deriving DecidableEq

/-- Humidity wire encodings (`enum Humidity`): `V1` holds a `u8` whole-percent
value, `V2` a `u16` tenths-of-a-percent value. -/
inductive Humidity where
  | v1 (v : Nat)
  | v2 (v : Nat)
deriving DecidableEq

/-- Hardware variants (`enum Device`). -/
inductive Device where
  | aranet4
  | aranet2
  | aranetRadiation
  | aranetRadon
deriving DecidableEq

/-- Radiation block (`struct Radiation`). -/
structure Radiation where
  raw_total : Nat
  raw_duration : Nat
  raw_rate : Nat
deriving DecidableEq

instance : DecidableEq (Except ReadingError Nat) := fun a b =>
  match a, b with
  | .ok x, .ok y =>
    if h : x = y then isTrue (by rw [h]) else isFalse (fun he => h (by cases he; rfl))
  | .error x, .error y =>
    if h : x = y then isTrue (by rw [h]) else isFalse (fun he => h (by cases he; rfl))
  | .ok _, .error _ => isFalse (fun he => by cases he)
  | .error _, .ok _ => isFalse (fun he => by cases he)

instance : DecidableEq (Except ReadingError Humidity) := fun a b =>
  match a, b with
  | .ok x, .ok y =>
    if h : x = y then isTrue (by rw [h]) else isFalse (fun he => h (by cases he; rfl))
  | .error x, .error y =>
    if h : x = y then isTrue (by rw [h]) else isFalse (fun he => h (by cases he; rfl))
  | .ok _, .error _ => isFalse (fun he => by cases he)
  | .error _, .ok _ => isFalse (fun he => by cases he)

/-- The decoded measurement (`struct Reading`).  `instant` and `time` are the
monotonic and wall-clock capture timestamps in nanoseconds. -/
structure Reading where
  device : Device
  co2 : Option (Except ReadingError Nat)
  radon : Option (Except ReadingError Nat)
  radiation : Option Radiation
  raw_temperature : Option (Except ReadingError Nat)
  raw_pressure : Option (Except ReadingError Nat)
  raw_humidity : Option (Except ReadingError Humidity)
  battery : Nat
  interval : Nat
  age : Nat
  instant : Nat
  time : Nat
deriving DecidableEq

/-- Structural decode errors.  `reading.rs` uses `String` for these; each
constructor corresponds to one distinct message:
* `tooShort got` = "Raw reading data too short, expected 21 bytes, got {got}"
* `unknownDevice v` = "Unknown device type: {v}"
* `unsupported` = "Aranet2 is not yet supported, PRs welcome"
* `instantUnderflow` = "Failed to get current instant"
* `timeUnderflow` = "Failed to get current time" -/
inductive DecodeError where
  | tooShort (got : Nat)
  | unknownDevice (v : Nat)
  | unsupported
  | instantUnderflow
  | timeUnderflow
deriving DecidableEq

/-- Outcome of `Reading::try_from(&[u8])`.  `crash` models a Rust panic
(`unwrap()` of an exhausted byte iterator, or `unreachable!()`). -/
inductive DecodeOutcome where
  | crash
  | error (e : DecodeError)
  | ok (r : Reading)
deriving DecidableEq

/-- `impl TryFrom<u8> for Device` (`reading.rs` lines 96-108). -/
def Device.tryFrom (value : Nat) : Except DecodeError Device :=
  match value with
  | 0 => .ok .aranet4
  | 1 => .ok .aranet2
  | 2 => .ok .aranetRadiation
  | 3 => .ok .aranetRadon
  | v => .error (.unknownDevice v)

/-- Read byte `i` of the buffer (one `bytes.next()` step); `none` models an
exhausted iterator.  The `% 256` records that the Rust buffer element is `u8`. -/
def byteAt (raw : List Nat) (i : Nat) : Option Nat :=
  (raw.get? i).map (· % 256)

/-- `u16::from_le_bytes` of bytes `i, i+1`. -/
def u16At (raw : List Nat) (i : Nat) : Option Nat := do
  let b0 ← byteAt raw i
  let b1 ← byteAt raw (i + 1)
  pure (b0 + 256 * b1)

/-- `u32::from_le_bytes` of bytes `i, .., i+3`. -/
def u32At (raw : List Nat) (i : Nat) : Option Nat := do
  let b0 ← byteAt raw i
  let b1 ← byteAt raw (i + 1)
  let b2 ← byteAt raw (i + 2)
  let b3 ← byteAt raw (i + 3)
  pure (b0 + 256 * b1 + 65536 * b2 + 16777216 * b3)

/-- Nanoseconds per second, the scale between `age` (seconds) and the
nanosecond-valued clocks. -/
def nsPerSec : Nat := 1000000000

/-- Device-variant determination (`reading.rs` lines 242-251): a 22-byte
buffer is Aranet4 without consulting any type byte; otherwise the first byte
is the type byte (`bytes.next().unwrap()`, safe because the length-21 check
already passed), and an `Aranet2` result is rejected as unsupported. -/
def decodeDevice (raw : List Nat) : Except DecodeError Device :=
  match (if raw.length = 22 then Except.ok Device.aranet4
         else Device.tryFrom (raw.headD 0 % 256)) with
  | .error e => .error e
  | .ok d => if d = .aranet2 then .error .unsupported else .ok d

/-- Common decode epilogue (`reading.rs` lines 380-409): with all fields in
hand, back-date the two clocks by `age` seconds (`checked_sub`, failing on
underflow) and assemble the `Reading`. -/
def finish (nowI nowT : Nat) (device : Device)
    (co2 radon : Option (Except ReadingError Nat)) (radiation : Option Radiation)
    (rt rp : Option (Except ReadingError Nat)) (rh : Option (Except ReadingError Humidity))
    (battery intervalV ageV : Nat) : DecodeOutcome :=
  if nowI < ageV * nsPerSec then .error .instantUnderflow
  else if nowT < ageV * nsPerSec then .error .timeUnderflow
  else .ok {
    device := device, co2 := co2, radon := radon, radiation := radiation,
    raw_temperature := rt, raw_pressure := rp, raw_humidity := rh,
    battery := battery, interval := intervalV, age := ageV,
    instant := nowI - ageV * nsPerSec, time := nowT - ageV * nsPerSec }

/-- Aranet4 field extraction.  `b` is the offset of the first payload byte
(0 for the length-22 path, 1 when a type byte was consumed).  The iterator
skips 8 header bytes, so: CO2 at `b+8..b+9`, temperature `b+10..b+11`,
pressure `b+12..b+13`, humidity `b+14`, battery `b+15`, status `b+16`,
interval `b+17..b+18`, age `b+19..b+20` (`reading.rs` lines 253-384). -/
def decodeAranet4 (nowI nowT : Nat) (raw : List Nat) (b : Nat) : DecodeOutcome :=
  match u16At raw (b + 8), u16At raw (b + 10), u16At raw (b + 12), byteAt raw (b + 14),
        byteAt raw (b + 15), byteAt raw (b + 16), u16At raw (b + 17), u16At raw (b + 19) with
  | some co2, some temp, some pres, some hum,
    some battery, some _status, some intervalV, some ageV =>
    finish nowI nowT .aranet4
      (some (if co2 >>> 15 > 0 then .error .invalid else .ok co2))
      none none
      (some (if (temp >>> 14) &&& 1 > 0 then .error .invalid else .ok temp))
      (some (if pres >>> 15 > 0 then .error .invalid else .ok pres))
      (some (if hum >>> 7 > 0 then .error .invalid else .ok (.v1 hum)))
      battery intervalV ageV
  | _, _, _, _, _, _, _, _ => .crash

/-- AranetRadon field extraction.  Reached only through a type byte, so the
payload starts at offset 1; the iterator skips 7 header bytes, giving: radon
at `8..9`, temperature `10..11`, pressure `12..13`, humidity (16-bit, V2)
`14..15`, one skipped byte `16`, battery `17`, status `18`, interval `19..20`,
age `21..22` (`reading.rs` lines 253-384). -/
def decodeRadon (nowI nowT : Nat) (raw : List Nat) : DecodeOutcome :=
  match u16At raw 8, u16At raw 10, u16At raw 12, u16At raw 14,
        byteAt raw 17, byteAt raw 18, u16At raw 19, u16At raw 21 with
  | some radonW, some temp, some pres, some hum,
    some battery, some _status, some intervalV, some ageV =>
    finish nowI nowT .aranetRadon
      none
      (some (if radonW = 0x1F01 then .error .noData
             else if radonW = 0x1F02 then .error .highHumidity
             else if radonW > 0x1F00 then .error .invalid
             else .ok radonW))
      none
      (some (if (temp >>> 14) &&& 1 > 0 then .error .invalid else .ok temp))
      (some (if pres >>> 15 > 0 then .error .invalid else .ok pres))
      (some (if hum >>> 15 > 0 then .error .invalid else .ok (.v2 hum)))
      battery intervalV ageV
  | _, _, _, _, _, _, _, _ => .crash

/-- AranetRadiation field extraction.  Reached only through a type byte; the
iterator skips 5 header bytes, giving: total `6..9`, duration `10..13`, rate
`14..15`, one skipped byte `16`, battery `17`, status `18`, interval `19..20`,
age `21..22` (`reading.rs` lines 253-384). -/
def decodeRadiation (nowI nowT : Nat) (raw : List Nat) : DecodeOutcome :=
  match u32At raw 6, u32At raw 10, u16At raw 14,
        byteAt raw 17, byteAt raw 18, u16At raw 19, u16At raw 21 with
  | some total, some duration, some rate,
    some battery, some _status, some intervalV, some ageV =>
    finish nowI nowT .aranetRadiation
      none none
      (some { raw_total := total, raw_duration := duration, raw_rate := rate })
      none none none
      battery intervalV ageV
  | _, _, _, _, _, _, _ => .crash

/-- `impl TryFrom<&[u8]> for Reading` (`reading.rs` lines 229-411).  `nowI`
and `nowT` are the values of `Instant::now()` and `SystemTime::now()` in
nanoseconds. The `.ok .aranet2` arm models the `unreachable!()` calls guarding
Aranet2 past the unsupported-variant rejection in `decodeDevice`. -/
def decode (nowI nowT : Nat) (raw : List Nat) : DecodeOutcome :=
  if raw.length < 21 then .error (.tooShort raw.length)
  else
    match decodeDevice raw with
    | .error e => .error e
    | .ok .aranet4 => decodeAranet4 nowI nowT raw (if raw.length = 22 then 0 else 1)
    | .ok .aranet2 => .crash
    | .ok .aranetRadiation => decodeRadiation nowI nowT raw
    | .ok .aranetRadon => decodeRadon nowI nowT raw

/-- `later.duration_since(earlier).as_secs()` on two monotonic instants:
saturating subtraction of nanosecond counts, then whole seconds. -/
def durationSinceSecs (later earlier : Nat) : Nat :=
  (later - earlier) / nsPerSec

/-- `Reading::is_repeat_reading` (`reading.rs` lines 192-226).  `self` is the
previously accepted reading, `newer` the candidate. -/
def Reading.is_repeat_reading (self newer : Reading) : Bool :=
  if self.co2 ≠ newer.co2 ∨ self.radon ≠ newer.radon ∨ self.radiation ≠ newer.radiation
      ∨ self.raw_temperature ≠ newer.raw_temperature ∨ self.raw_pressure ≠ newer.raw_pressure
      ∨ self.raw_humidity ≠ newer.raw_humidity ∨ self.battery ≠ newer.battery then
    false
  else if newer.age < self.age then
    false
  else if newer.interval ≠ self.interval then
    true
  else if durationSinceSecs newer.instant self.instant > newer.interval then
    false
  else
    true

/-- The 22-byte advertisement from `test_co2_reading`. -/
def a4Frame : List Nat :=
  [0x21, 0x2c, 0x05, 0x01, 0x00, 0x0c, 0x01, 0x01, 0xf0, 0x02, 0xc4, 0x01, 0xcd, 0x27,
   0x38, 0x3c, 0x01, 0x3c, 0x00, 0x0d, 0x00, 0x5d]

/-- The 24-byte advertisement from `test_radon_reading`. -/
def radonFrame : List Nat :=
  [0x03, 0x21, 0x04, 0x09, 0x01, 0x00, 0x00, 0x00, 0x18, 0x00, 0x4c, 0x01, 0x50, 0x27,
   0x35, 0x02, 0x00, 0x64, 0x01, 0x58, 0x02, 0x41, 0x01, 0x45]

/-- The 24-byte advertisement from `test_radiation_reading`. -/
def radiationFrame : List Nat :=
  [0x02, 0x21, 0x01, 0x09, 0x01, 0x00, 0x35, 0x00, 0x00, 0x00, 0xe4, 0x0c, 0x00, 0x00,
   0x3c, 0x00, 0x00, 0x64, 0x00, 0x3c, 0x00, 0x05, 0x00, 0x37]

/-- Decoding `a4Frame` with both clocks at 10^12 ns. -/
def a4Reading : Reading :=
  { device := .aranet4, co2 := some (.ok 752), radon := none, radiation := none,
    raw_temperature := some (.ok 452), raw_pressure := some (.ok 10189),
    raw_humidity := some (.ok (.v1 56)), battery := 60, interval := 60, age := 13,
    instant := 987000000000, time := 987000000000 }

/-- Decoding `radonFrame` with both clocks at 10^12 ns. -/
def radonReading : Reading :=
  { device := .aranetRadon, co2 := none, radon := some (.ok 24), radiation := none,
    raw_temperature := some (.ok 332), raw_pressure := some (.ok 10064),
    raw_humidity := some (.ok (.v2 565)), battery := 100, interval := 600, age := 321,
    instant := 679000000000, time := 679000000000 }

/-- Decoding `radiationFrame` with both clocks at 10^12 ns. -/
def radiationReading : Reading :=
  { device := .aranetRadiation, co2 := none, radon := none,
    radiation := some { raw_total := 53, raw_duration := 3300, raw_rate := 60 },
    raw_temperature := none, raw_pressure := none, raw_humidity := none,
    battery := 100, interval := 60, age := 5,
    instant := 995000000000, time := 995000000000 }

/-- Sanity check: the embedding reproduces the `test_co2_reading` unit test. -/
theorem decode_sample_aranet4 :
    decode 1000000000000 1000000000000 a4Frame = .ok a4Reading := by decide

/-- Sanity check: the embedding reproduces the `test_radon_reading` unit test. -/
theorem decode_sample_radon :
    decode 1000000000000 1000000000000 radonFrame = .ok radonReading := by decide

/-- Sanity check: the embedding reproduces the `test_radiation_reading` unit test. -/
theorem decode_sample_radiation :
    decode 1000000000000 1000000000000 radiationFrame = .ok radiationReading := by decide

/-- Claim C9: every buffer shorter than 21 bytes is rejected with the too-short
structural error, regardless of contents, and decoding never panics there. -/
theorem too_short_rejected (nowI nowT : Nat) (raw : List Nat) (h : raw.length < 21) :
    decode nowI nowT raw = .error (.tooShort raw.length) := by
  unfold decode
  rw [if_pos h]

theorem too_short_rejected_witness :
    ([] : List Nat).length < 21 ∧ decode 0 0 [] = .error (.tooShort 0) :=
  ⟨by decide, too_short_rejected 0 0 [] (by decide)⟩

/-- Claim C1 (failing input): a 21-byte buffer whose type byte selects the
radon variant passes the decoder's minimum-length check, yet decoding panics
(the age read runs the byte iterator past the end and `unwrap()`s `None`)
instead of returning `Ok` or `Err`. -/
theorem decode_radon_21byte_frame_crashes :
    decode 0 0 [3, 0, 0, 0, 0, 0, 0, 0, 0, 0, 0, 0, 0, 0, 0, 0, 0, 0, 0, 0, 0] = .crash := by
  decide

/-- Claim C3: if any sensor-bearing field (CO2, radon, radiation, raw
temperature, raw pressure, raw humidity, battery) differs between the previous
and the candidate measurement — including a difference only in validity or
absence status — the candidate is not a repeat, regardless of age, interval
and capture instants. -/
theorem sensor_diff_not_repeat (prev cand : Reading)
    (h : prev.co2 ≠ cand.co2 ∨ prev.radon ≠ cand.radon ∨ prev.radiation ≠ cand.radiation
      ∨ prev.raw_temperature ≠ cand.raw_temperature ∨ prev.raw_pressure ≠ cand.raw_pressure
      ∨ prev.raw_humidity ≠ cand.raw_humidity ∨ prev.battery ≠ cand.battery) :
    prev.is_repeat_reading cand = false := by
  unfold Reading.is_repeat_reading
  rw [if_pos h]

theorem sensor_diff_not_repeat_witness :
    a4Reading.co2 ≠ { a4Reading with co2 := some (.ok 800) : Reading }.co2 ∧
    a4Reading.is_repeat_reading { a4Reading with co2 := some (.ok 800) } = false :=
  ⟨by decide, sensor_diff_not_repeat a4Reading { a4Reading with co2 := some (.ok 800) }
    (Or.inl (by decide))⟩

/-- Claim C4: with all sensor-bearing fields equal, a candidate whose age is
strictly smaller than the previous age is never a repeat (device counter
rollover), regardless of intervals and capture instants. -/
theorem age_rollover_not_repeat (prev cand : Reading)
    (h1 : prev.co2 = cand.co2) (h2 : prev.radon = cand.radon)
    (h3 : prev.radiation = cand.radiation) (h4 : prev.raw_temperature = cand.raw_temperature)
    (h5 : prev.raw_pressure = cand.raw_pressure) (h6 : prev.raw_humidity = cand.raw_humidity)
    (h7 : prev.battery = cand.battery) (hage : cand.age < prev.age) :
    prev.is_repeat_reading cand = false := by
  unfold Reading.is_repeat_reading
  rw [if_neg (by simp [h1, h2, h3, h4, h5, h6, h7]), if_pos hage]

theorem age_rollover_not_repeat_witness :
    ({ a4Reading with age := 5 : Reading }.age < a4Reading.age) ∧
    a4Reading.is_repeat_reading { a4Reading with age := 5 } = false :=
  ⟨by decide, age_rollover_not_repeat a4Reading { a4Reading with age := 5 }
    rfl rfl rfl rfl rfl rfl rfl (by decide)⟩

/-- Claim C5: with all sensor-bearing fields equal and the candidate's age not
below the previous age, an interval change makes the candidate a repeat;
otherwise the candidate is not a repeat exactly when the elapsed whole seconds
from the previous monotonic capture instant to the candidate's strictly exceed
the candidate's interval, and is a repeat otherwise. -/
theorem equal_sensors_elapsed_rule (prev cand : Reading)
    (h1 : prev.co2 = cand.co2) (h2 : prev.radon = cand.radon)
    (h3 : prev.radiation = cand.radiation) (h4 : prev.raw_temperature = cand.raw_temperature)
    (h5 : prev.raw_pressure = cand.raw_pressure) (h6 : prev.raw_humidity = cand.raw_humidity)
    (h7 : prev.battery = cand.battery) (hage : prev.age ≤ cand.age) :
    (cand.interval ≠ prev.interval → prev.is_repeat_reading cand = true) ∧
    (cand.interval = prev.interval →
      (cand.interval < durationSinceSecs cand.instant prev.instant →
        prev.is_repeat_reading cand = false) ∧
      (¬ cand.interval < durationSinceSecs cand.instant prev.instant →
        prev.is_repeat_reading cand = true)) := by
  have hno : ¬ (prev.co2 ≠ cand.co2 ∨ prev.radon ≠ cand.radon ∨ prev.radiation ≠ cand.radiation
      ∨ prev.raw_temperature ≠ cand.raw_temperature ∨ prev.raw_pressure ≠ cand.raw_pressure
      ∨ prev.raw_humidity ≠ cand.raw_humidity ∨ prev.battery ≠ cand.battery) := by
    simp [h1, h2, h3, h4, h5, h6, h7]
  have hna : ¬ cand.age < prev.age := Nat.not_lt.mpr hage
  refine ⟨fun hi => ?_, fun hi => ⟨fun hel => ?_, fun hel => ?_⟩⟩
  · unfold Reading.is_repeat_reading
    rw [if_neg hno, if_neg hna, if_pos hi]
  · unfold Reading.is_repeat_reading
    rw [if_neg hno, if_neg hna, if_neg (by simp [hi]), if_pos hel]
  · unfold Reading.is_repeat_reading
    rw [if_neg hno, if_neg hna, if_neg (by simp [hi]), if_neg hel]

theorem equal_sensors_elapsed_rule_witness :
    ({ a4Reading with instant := 1087000000000 : Reading }.interval <
      durationSinceSecs ({ a4Reading with instant := 1087000000000 : Reading }).instant
        a4Reading.instant) ∧
    a4Reading.is_repeat_reading { a4Reading with instant := 1087000000000 } = false :=
  ⟨by decide,
    ((equal_sensors_elapsed_rule a4Reading { a4Reading with instant := 1087000000000 }
      rfl rfl rfl rfl rfl rfl rfl (by decide)).2 rfl).1 (by decide)⟩

/-- Inversion for a successful Aranet4 decode: the device tag and the shape
of every field of the resulting reading. -/
theorem decodeAranet4_ok_fields (nowI nowT : Nat) (raw : List Nat) (b : Nat) (r : Reading)
    (h : decodeAranet4 nowI nowT raw b = .ok r) :
    r.device = .aranet4 ∧ r.radon = none ∧ r.radiation = none ∧
    (∃ w, u16At raw (b + 8) = some w ∧
      r.co2 = some (if w >>> 15 > 0 then .error .invalid else .ok w)) ∧
    (∃ w, u16At raw (b + 10) = some w ∧
      r.raw_temperature = some (if (w >>> 14) &&& 1 > 0 then .error .invalid else .ok w)) ∧
    (∃ w, u16At raw (b + 12) = some w ∧
      r.raw_pressure = some (if w >>> 15 > 0 then .error .invalid else .ok w)) ∧
    (∃ w, byteAt raw (b + 14) = some w ∧
      r.raw_humidity = some (if w >>> 7 > 0 then .error .invalid else .ok (.v1 w))) := by
  unfold decodeAranet4 at h
  split at h
  next co2 temp pres hum battery status intervalV ageV heq1 heq2 heq3 heq4 heq5 heq6 heq7 heq8 =>
    unfold finish at h
    split at h
    · simp at h
    · split at h
      · simp at h
      · injection h with h
        subst h
        exact ⟨rfl, rfl, rfl, ⟨co2, heq1, rfl⟩, ⟨temp, heq2, rfl⟩,
          ⟨pres, heq3, rfl⟩, ⟨hum, heq4, rfl⟩⟩
  next => simp at h

/-- Inversion for a successful AranetRadon decode. -/
theorem decodeRadon_ok_fields (nowI nowT : Nat) (raw : List Nat) (r : Reading)
    (h : decodeRadon nowI nowT raw = .ok r) :
    r.device = .aranetRadon ∧ r.co2 = none ∧ r.radiation = none ∧
    (∃ w, u16At raw 8 = some w ∧
      r.radon = some (if w = 0x1F01 then .error .noData
        else if w = 0x1F02 then .error .highHumidity
        else if w > 0x1F00 then .error .invalid
        else .ok w)) ∧
    (∃ w, u16At raw 14 = some w ∧
      r.raw_humidity = some (if w >>> 15 > 0 then .error .invalid else .ok (.v2 w))) := by
  unfold decodeRadon at h
  split at h
  next radonW temp pres hum battery status intervalV ageV heq1 heq2 heq3 heq4 heq5 heq6 heq7 heq8 =>
    unfold finish at h
    split at h
    · simp at h
    · split at h
      · simp at h
      · injection h with h
        subst h
        exact ⟨rfl, rfl, rfl, ⟨radonW, heq1, rfl⟩, ⟨hum, heq4, rfl⟩⟩
  next => simp at h

/-- Inversion for a successful AranetRadiation decode. -/
theorem decodeRadiation_ok_fields (nowI nowT : Nat) (raw : List Nat) (r : Reading)
    (h : decodeRadiation nowI nowT raw = .ok r) :
    r.device = .aranetRadiation ∧ r.co2 = none ∧ r.radon = none ∧
    r.raw_temperature = none ∧ r.raw_pressure = none ∧ r.raw_humidity = none := by
  unfold decodeRadiation at h
  split at h
  next total duration rate battery status intervalV ageV heq1 heq2 heq3 heq4 heq5 heq6 heq7 =>
    unfold finish at h
    split at h
    · simp at h
    · split at h
      · simp at h
      · injection h with h
        subst h
        exact ⟨rfl, rfl, rfl, rfl, rfl, rfl⟩
  next => simp at h

/-- `decodeDevice` never yields the companion variant: it is rejected with the
unsupported error instead. -/
theorem decodeDevice_ne_aranet2 (raw : List Nat) : decodeDevice raw ≠ .ok .aranet2 := by
  unfold decodeDevice
  split
  · simp
  · rename_i d heq
    by_cases hd : d = Device.aranet2
    · rw [if_pos hd]; simp
    · rw [if_neg hd]
      intro hco
      injection hco with h
      exact hd h

/-- Dispatch inversion for a successful decode: the decoded device agrees with
`decodeDevice`, and the per-variant decoder that produced the reading. -/
theorem decode_ok_dispatch (nowI nowT : Nat) (raw : List Nat) (r : Reading)
    (h : decode nowI nowT raw = .ok r) :
    decodeDevice raw = .ok r.device ∧
    (r.device = .aranet4 →
      decodeAranet4 nowI nowT raw (if raw.length = 22 then 0 else 1) = .ok r) ∧
    (r.device = .aranetRadon → decodeRadon nowI nowT raw = .ok r) ∧
    (r.device = .aranetRadiation → decodeRadiation nowI nowT raw = .ok r) := by
  unfold decode at h
  split at h
  · simp at h
  · split at h
    · simp at h
    next heq =>
      have hdev := (decodeAranet4_ok_fields _ _ _ _ _ h).1
      refine ⟨by rw [hdev, heq], fun _ => h, fun hr => ?_, fun hr => ?_⟩
      · rw [hdev] at hr; cases hr
      · rw [hdev] at hr; cases hr
    · simp at h
    next heq =>
      have hdev := (decodeRadiation_ok_fields _ _ _ _ h).1
      refine ⟨by rw [hdev, heq], fun hr => ?_, fun hr => ?_, fun _ => h⟩
      · rw [hdev] at hr; cases hr
      · rw [hdev] at hr; cases hr
    next heq =>
      have hdev := (decodeRadon_ok_fields _ _ _ _ h).1
      refine ⟨by rw [hdev, heq], fun hr => ?_, fun _ => h, fun hr => ?_⟩
      · rw [hdev] at hr; cases hr
      · rw [hdev] at hr; cases hr

/-- A structural device-determination error aborts decoding with that error
(provided the length gate was passed). -/
theorem decode_of_device_error (nowI nowT : Nat) (raw : List Nat) (e : DecodeError)
    (h21 : 21 ≤ raw.length) (h : decodeDevice raw = .error e) :
    decode nowI nowT raw = .error e := by
  unfold decode
  rw [if_neg (by omega), h]

/-- Claim C2: a buffer of length exactly 22 is decoded as the Primary variant
(Aranet4) without consulting any type byte; for any other length at least 21,
the first byte dispatches 0 to Primary, 1 to Companion (Aranet2), 2 to the
radiation variant, 3 to the radon variant; any other type-byte value fails
with the unknown-variant error, and a frame resolving to the companion variant
fails with the unsupported error rather than producing a measurement. -/
theorem variant_dispatch (nowI nowT : Nat) (raw : List Nat) (h21 : 21 ≤ raw.length) :
    (raw.length = 22 → decodeDevice raw = .ok .aranet4) ∧
    (raw.length ≠ 22 → raw.headD 0 % 256 = 0 → decodeDevice raw = .ok .aranet4) ∧
    (raw.length ≠ 22 → raw.headD 0 % 256 = 1 →
      decodeDevice raw = .error .unsupported ∧
      decode nowI nowT raw = .error .unsupported) ∧
    (raw.length ≠ 22 → raw.headD 0 % 256 = 2 → decodeDevice raw = .ok .aranetRadiation) ∧
    (raw.length ≠ 22 → raw.headD 0 % 256 = 3 → decodeDevice raw = .ok .aranetRadon) ∧
    (raw.length ≠ 22 → 4 ≤ raw.headD 0 % 256 →
      decodeDevice raw = .error (.unknownDevice (raw.headD 0 % 256)) ∧
      decode nowI nowT raw = .error (.unknownDevice (raw.headD 0 % 256))) ∧
    (∀ r, decode nowI nowT raw = .ok r → decodeDevice raw = .ok r.device) := by
  refine ⟨fun hl => ?_, fun hl hb => ?_, fun hl hb => ?_, fun hl hb => ?_, fun hl hb => ?_,
    fun hl hb => ?_, fun r hok => (decode_ok_dispatch nowI nowT raw r hok).1⟩
  · unfold decodeDevice
    rw [if_pos hl]
    rfl
  · unfold decodeDevice
    rw [if_neg hl, hb]
    rfl
  · have hdd : decodeDevice raw = .error .unsupported := by
      unfold decodeDevice
      rw [if_neg hl, hb]
      rfl
    exact ⟨hdd, decode_of_device_error nowI nowT raw _ h21 hdd⟩
  · unfold decodeDevice
    rw [if_neg hl, hb]
    rfl
  · unfold decodeDevice
    rw [if_neg hl, hb]
    rfl
  · obtain ⟨k, hk⟩ : ∃ k, raw.headD 0 % 256 = k + 4 := ⟨raw.headD 0 % 256 - 4, by omega⟩
    have hdd : decodeDevice raw = .error (.unknownDevice (raw.headD 0 % 256)) := by
      unfold decodeDevice
      rw [if_neg hl, hk]
      rfl
    exact ⟨hdd, decode_of_device_error nowI nowT raw _ h21 hdd⟩

theorem variant_dispatch_witness :
    21 ≤ ([9, 0, 0, 0, 0, 0, 0, 0, 0, 0, 0, 0, 0, 0, 0, 0, 0, 0, 0, 0, 0] : List Nat).length ∧
    decode 0 0 [9, 0, 0, 0, 0, 0, 0, 0, 0, 0, 0, 0, 0, 0, 0, 0, 0, 0, 0, 0, 0] =
      .error (.unknownDevice 9) :=
  ⟨by decide,
    ((variant_dispatch 0 0 [9, 0, 0, 0, 0, 0, 0, 0, 0, 0, 0, 0, 0, 0, 0, 0, 0, 0, 0, 0, 0]
      (by decide)).2.2.2.2.2.1 (by decide) (by decide)).2⟩

/-- Claim C6: in every successfully decoded radon-variant frame the 16-bit
little-endian radon field is classified by exactly this partition: 0x1F01
yields the no-data error, 0x1F02 the high-humidity error, any other value
above 0x1F00 the invalid error, and any value at most 0x1F00 is valid. -/
theorem radon_sentinel_partition (nowI nowT : Nat) (raw : List Nat) (r : Reading) (w : Nat)
    (hok : decode nowI nowT raw = .ok r) (hdev : r.device = .aranetRadon)
    (hw : u16At raw 8 = some w) :
    (w = 0x1F01 → r.radon = some (.error .noData)) ∧
    (w = 0x1F02 → r.radon = some (.error .highHumidity)) ∧
    (w ≠ 0x1F01 → w ≠ 0x1F02 → 0x1F00 < w → r.radon = some (.error .invalid)) ∧
    (w ≤ 0x1F00 → r.radon = some (.ok w)) := by
  have hr := (decode_ok_dispatch nowI nowT raw r hok).2.2.1 hdev
  obtain ⟨-, -, -, ⟨w', hw', hradon⟩, -⟩ := decodeRadon_ok_fields nowI nowT raw r hr
  rw [hw] at hw'
  injection hw' with hww
  subst hww
  refine ⟨fun h1 => ?_, fun h2 => ?_, fun h1 h2 h3 => ?_, fun h4 => ?_⟩
  · rw [hradon, if_pos h1]
  · rw [hradon, if_neg (by omega), if_pos h2]
  · rw [hradon, if_neg h1, if_neg h2, if_pos h3]
  · rw [hradon, if_neg (by omega), if_neg (by omega), if_neg (by omega)]

theorem radon_sentinel_partition_witness :
    (24 : Nat) ≤ 0x1F00 ∧ radonReading.radon = some (.ok 24) :=
  ⟨by decide,
    (radon_sentinel_partition 1000000000000 1000000000000 radonFrame radonReading 24
      (by decide) rfl (by decide)).2.2.2 (by decide)⟩

/-- Claim C8: every successfully decoded radiation-variant measurement has
absent temperature, pressure, humidity, CO2 and radon fields (never
invalid-but-present), and every measurement decoded to the companion variant
has an absent CO2 field (vacuously, as the companion variant never decodes). -/
theorem variant_field_absence (nowI nowT : Nat) (raw : List Nat) (r : Reading)
    (hok : decode nowI nowT raw = .ok r) :
    (r.device = .aranetRadiation →
      r.co2 = none ∧ r.radon = none ∧ r.raw_temperature = none ∧
      r.raw_pressure = none ∧ r.raw_humidity = none) ∧
    (r.device = .aranet2 → r.co2 = none) := by
  have hd := decode_ok_dispatch nowI nowT raw r hok
  refine ⟨fun hr => ?_, fun hr => ?_⟩
  · obtain ⟨-, h1, h2, h3, h4, h5⟩ := decodeRadiation_ok_fields nowI nowT raw r (hd.2.2.2 hr)
    exact ⟨h1, h2, h3, h4, h5⟩
  · exact absurd (hr ▸ hd.1) (decodeDevice_ne_aranet2 raw)

theorem variant_field_absence_witness :
    radiationReading.device = .aranetRadiation ∧
    (radiationReading.co2 = none ∧ radiationReading.radon = none ∧
     radiationReading.raw_temperature = none ∧ radiationReading.raw_pressure = none ∧
     radiationReading.raw_humidity = none) :=
  ⟨rfl, (variant_field_absence 1000000000000 1000000000000 radiationFrame radiationReading
    (by decide)).1 rfl⟩

/-- Claim C10: in every successfully decoded radon-variant frame the humidity
field is the 16-bit little-endian value at its fixed offset, tagged with the
tenths-of-a-percent (V2) encoding; its top bit set makes the field invalid,
and with the top bit clear the field is valid. -/
theorem radon_humidity_encoding (nowI nowT : Nat) (raw : List Nat) (r : Reading) (w : Nat)
    (hok : decode nowI nowT raw = .ok r) (hdev : r.device = .aranetRadon)
    (hw : u16At raw 14 = some w) :
    (0 < w >>> 15 → r.raw_humidity = some (.error .invalid)) ∧
    (w >>> 15 = 0 → r.raw_humidity = some (.ok (.v2 w))) := by
  have hr := (decode_ok_dispatch nowI nowT raw r hok).2.2.1 hdev
  obtain ⟨-, -, -, -, ⟨w', hw', hhum⟩⟩ := decodeRadon_ok_fields nowI nowT raw r hr
  rw [hw] at hw'
  injection hw' with hww
  subst hww
  refine ⟨fun h => ?_, fun h => ?_⟩
  · rw [hhum, if_pos h]
  · rw [hhum, if_neg (by omega)]

theorem radon_humidity_encoding_witness :
    (565 : Nat) >>> 15 = 0 ∧ radonReading.raw_humidity = some (.ok (.v2 565)) :=
  ⟨by decide,
    (radon_humidity_encoding 1000000000000 1000000000000 radonFrame radonReading 565
      (by decide) rfl (by decide)).2 (by decide)⟩

/-- Setting bit `k` of a byte survives the truncation to 8 bits: bit `k` of
`(b ||| 2^k) % 256` is set, for `k < 8`. -/
theorem mod256_lor_bit (b k : Nat) (hk : k < 8) :
    (b ||| 2 ^ k) % 256 / 2 ^ k % 2 = 1 := by
  have h : Nat.testBit ((b ||| 2 ^ k) % 256) k = true := by
    have h256 : (256 : Nat) = 2 ^ 8 := by norm_num
    rw [h256, Nat.testBit_mod_two_pow, Nat.testBit_or]
    simp [hk, Nat.testBit_two_pow_self]
  rw [Nat.testBit_to_div_mod] at h
  exact of_decide_eq_true h

/-- A byte with its top bit forced on is at least 128 after truncation. -/
theorem lor128_mod256_ge (b : Nat) : 128 ≤ (b ||| 128) % 256 := by
  have h := mod256_lor_bit b 7 (by norm_num)
  norm_num at h
  by_contra hlt
  push_neg at hlt
  have : (b ||| 128) % 256 / 128 = 0 := Nat.div_eq_of_lt hlt
  omega

/-- A 16-bit word whose high byte has its top bit forced on fails the
`w >>> 15 > 0` sentinel check. -/
theorem word_hi_bit_set (a b : Nat) : (a + 256 * ((b ||| 128) % 256)) >>> 15 > 0 := by
  rw [Nat.shiftRight_eq_div_pow]
  have h := lor128_mod256_ge b
  have hle : 2 ^ 15 ≤ a + 256 * ((b ||| 128) % 256) := by
    calc (2 : Nat) ^ 15 = 256 * 128 := by norm_num
    _ ≤ 256 * ((b ||| 128) % 256) := Nat.mul_le_mul_left _ h
    _ ≤ a + 256 * ((b ||| 128) % 256) := Nat.le_add_left _ _
  exact Nat.div_pos hle (by norm_num)

/-- A byte with its top bit forced on fails the `h >>> 7 > 0` sentinel check. -/
theorem byte_hi_bit_set (b : Nat) : ((b ||| 128) % 256) >>> 7 > 0 := by
  rw [Nat.shiftRight_eq_div_pow]
  have h128 : (2 : Nat) ^ 7 = 128 := by norm_num
  exact Nat.div_pos (h128 ▸ lor128_mod256_ge b) (by norm_num)

/-- A 16-bit word whose high byte has bit 6 forced on fails the
`(w >>> 14) &&& 1 > 0` sentinel check (given a genuine low byte). -/
theorem word_bit14_set (a b : Nat) (ha : a < 256) :
    ((a + 256 * ((b ||| 64) % 256)) >>> 14) &&& 1 > 0 := by
  have h64 := mod256_lor_bit b 6 (by norm_num)
  norm_num at h64
  rw [Nat.shiftRight_eq_div_pow]
  have hdiv : (a + 256 * ((b ||| 64) % 256)) / 2 ^ 14 = (b ||| 64) % 256 / 64 := by
    have h2 : (2 : Nat) ^ 14 = 256 * 64 := by norm_num
    rw [h2, ← Nat.div_div_eq_div_mul]
    congr 1
    rw [Nat.add_mul_div_left _ _ (by norm_num : (0 : Nat) < 256),
      Nat.div_eq_of_lt ha, Nat.zero_add]
  rw [hdiv, Nat.and_one_is_mod]
  omega

/-- Definitional evaluation of the decoder on an arbitrary 22-byte frame: the
length-22 path decodes as Aranet4 with fields at offsets 8-20. -/
theorem decode22_eq (nowI nowT b0 b1 b2 b3 b4 b5 b6 b7 b8 b9 b10 b11 b12 b13 b14 b15 b16
    b17 b18 b19 b20 b21 : Nat) :
    decode nowI nowT
      [b0, b1, b2, b3, b4, b5, b6, b7, b8, b9, b10, b11, b12, b13, b14, b15, b16, b17, b18,
       b19, b20, b21] =
    finish nowI nowT .aranet4
      (some (if (b8 % 256 + 256 * (b9 % 256)) >>> 15 > 0 then .error .invalid
             else .ok (b8 % 256 + 256 * (b9 % 256))))
      none none
      (some (if ((b10 % 256 + 256 * (b11 % 256)) >>> 14) &&& 1 > 0 then .error .invalid
             else .ok (b10 % 256 + 256 * (b11 % 256))))
      (some (if (b12 % 256 + 256 * (b13 % 256)) >>> 15 > 0 then .error .invalid
             else .ok (b12 % 256 + 256 * (b13 % 256))))
      (some (if (b14 % 256) >>> 7 > 0 then .error .invalid
             else .ok (.v1 (b14 % 256))))
      (b15 % 256) (b17 % 256 + 256 * (b18 % 256)) (b19 % 256 + 256 * (b20 % 256)) := rfl

/-- Claim C7: in a length-22 Primary frame the reserved invalid sentinels are
the CO2 word's bit 15, the temperature word's bit 14, the pressure word's bit
15 and the humidity byte's bit 7; for any frame that decodes successfully,
forcing the reserved bit of exactly one field on makes decode return the
invalid error for exactly that field and leaves every other decoded field of
the reading unchanged. -/
theorem primary_sentinel_propagation (nowI nowT b0 b1 b2 b3 b4 b5 b6 b7 b8 b9 b10 b11 b12 b13
    b14 b15 b16 b17 b18 b19 b20 b21 : Nat) (r : Reading)
    (hok : decode nowI nowT
      [b0, b1, b2, b3, b4, b5, b6, b7, b8, b9, b10, b11, b12, b13, b14, b15, b16, b17, b18,
       b19, b20, b21] = .ok r) :
    decode nowI nowT
      [b0, b1, b2, b3, b4, b5, b6, b7, b8, b9 ||| 128, b10, b11, b12, b13, b14, b15, b16, b17,
       b18, b19, b20, b21] = .ok { r with co2 := some (.error .invalid) } ∧
    decode nowI nowT
      [b0, b1, b2, b3, b4, b5, b6, b7, b8, b9, b10, b11 ||| 64, b12, b13, b14, b15, b16, b17,
       b18, b19, b20, b21] = .ok { r with raw_temperature := some (.error .invalid) } ∧
    decode nowI nowT
      [b0, b1, b2, b3, b4, b5, b6, b7, b8, b9, b10, b11, b12, b13 ||| 128, b14, b15, b16, b17,
       b18, b19, b20, b21] = .ok { r with raw_pressure := some (.error .invalid) } ∧
    decode nowI nowT
      [b0, b1, b2, b3, b4, b5, b6, b7, b8, b9, b10, b11, b12, b13, b14 ||| 128, b15, b16, b17,
       b18, b19, b20, b21] = .ok { r with raw_humidity := some (.error .invalid) } := by
  rw [decode22_eq] at hok
  unfold finish at hok
  by_cases hI : nowI < (b19 % 256 + 256 * (b20 % 256)) * nsPerSec
  · rw [if_pos hI] at hok; simp at hok
  rw [if_neg hI] at hok
  by_cases hT : nowT < (b19 % 256 + 256 * (b20 % 256)) * nsPerSec
  · rw [if_pos hT] at hok; simp at hok
  rw [if_neg hT] at hok
  injection hok with hok
  subst hok
  refine ⟨?_, ?_, ?_, ?_⟩
  · rw [decode22_eq]
    unfold finish
    rw [if_neg hI, if_neg hT, if_pos (word_hi_bit_set (b8 % 256) b9)]
  · rw [decode22_eq]
    unfold finish
    rw [if_neg hI, if_neg hT,
      if_pos (word_bit14_set (b10 % 256) b11 (Nat.mod_lt _ (by norm_num)))]
  · rw [decode22_eq]
    unfold finish
    rw [if_neg hI, if_neg hT, if_pos (word_hi_bit_set (b12 % 256) b13)]
  · rw [decode22_eq]
    unfold finish
    rw [if_neg hI, if_neg hT, if_pos (byte_hi_bit_set b14)]

theorem primary_sentinel_propagation_witness :
    decode 1000000000000 1000000000000
      [0x21, 0x2c, 0x05, 0x01, 0x00, 0x0c, 0x01, 0x01, 0xf0, 0x02, 0xc4, 0x01, 0xcd, 0x27,
       0x38, 0x3c, 0x01, 0x3c, 0x00, 0x0d, 0x00, 0x5d] = .ok a4Reading ∧
    decode 1000000000000 1000000000000
      [0x21, 0x2c, 0x05, 0x01, 0x00, 0x0c, 0x01, 0x01, 0xf0, 0x02 ||| 128, 0xc4, 0x01, 0xcd,
       0x27, 0x38, 0x3c, 0x01, 0x3c, 0x00, 0x0d, 0x00, 0x5d] =
      .ok { a4Reading with co2 := some (.error .invalid) } :=
  ⟨by decide,
    (primary_sentinel_propagation 1000000000000 1000000000000 0x21 0x2c 0x05 0x01 0x00 0x0c
      0x01 0x01 0xf0 0x02 0xc4 0x01 0xcd 0x27 0x38 0x3c 0x01 0x3c 0x00 0x0d 0x00 0x5d
      a4Reading (by decide)).1⟩
